import Mathlib

set_option maxRecDepth 10000

/-!
Shallow embedding of the courier Twilio channel handler (`src/msg.go`):
the message identifier types, the request signing/verification framework
(`twCalculateSignature`, `validateSignature`), the inbound pipeline
(`receiveMessage`, `receiveStatus`, `statusMapping`) and the outbound
pipeline (`SendMsg`).  Machine words are modelled as `Nat` with explicit
truncation; byte strings as `List Nat`.
-/

/-- Truncation to a 32-bit word, as Go `uint32` arithmetic does implicitly. -/
def w32 (n : Nat) : Nat := n % 4294967296

/-- 32-bit left rotation (operand assumed `< 2^32`). -/
def rotl (b n : Nat) : Nat := w32 ((n <<< b) ||| (n >>> (32 - b)))

/-- Big-endian byte serialisation of `v` in `k` bytes. -/
def beBytes (k v : Nat) : List Nat :=
  (List.range k).map (fun i => (v >>> (8 * (k - 1 - i))) % 256)

/-- Group a byte list into big-endian 32-bit words (4 bytes each). -/
def bytesToWords : List Nat → List Nat
  | b0 :: b1 :: b2 :: b3 :: rest =>
      ((b0 <<< 24) ||| (b1 <<< 16) ||| (b2 <<< 8) ||| b3) :: bytesToWords rest
  | _ => []

/-- Split a byte list into 64-byte blocks (fuel-indexed for structural
recursion; `fuel = l.length` always suffices since each step drops 64 bytes). -/
def chunksOf64Go : Nat → List Nat → List (List Nat)
  | 0, _ => []
  | _, [] => []
  | fuel + 1, b :: rest => ((b :: rest).take 64) :: chunksOf64Go fuel ((b :: rest).drop 64)

/-- Split a byte list into 64-byte blocks. -/
def chunksOf64 (l : List Nat) : List (List Nat) := chunksOf64Go l.length l

/-- SHA-1 message padding: `0x80`, zeros to 56 mod 64, 8-byte bit length. -/
def sha1Pad (msg : List Nat) : List Nat :=
  msg ++ 128 :: (List.replicate ((119 - msg.length % 64) % 64) 0 ++ beBytes 8 (msg.length * 8))

/-- SHA-1 message-schedule extension; `acc` holds the words produced so far,
most recent first, so `acc[2] = w[t-3]`, `acc[7] = w[t-8]`, etc. -/
def sha1Extend (acc : List Nat) : Nat → List Nat
  | 0 => acc
  | k + 1 =>
      let prev := sha1Extend acc k
      rotl 1 ((prev.getD 2 0) ^^^ (prev.getD 7 0) ^^^ (prev.getD 13 0) ^^^ (prev.getD 15 0)) :: prev

/-- SHA-1 round function. -/
def sha1F (t b c d : Nat) : Nat :=
  if t < 20 then (b &&& c) ||| ((b ^^^ 4294967295) &&& d)
  else if t < 40 then b ^^^ c ^^^ d
  else if t < 60 then (b &&& c) ||| (b &&& d) ||| (c &&& d)
  else b ^^^ c ^^^ d

/-- SHA-1 round constants. -/
def sha1K (t : Nat) : Nat :=
  if t < 20 then 1518500249
  else if t < 40 then 1859775393
  else if t < 60 then 2400959708
  else 3395469782

/-- The five-word SHA-1 chaining state. -/
structure Sha1State where
  a : Nat
  b : Nat
  c : Nat
  d : Nat
  e : Nat
deriving DecidableEq

/-- SHA-1 initial chaining value. -/
def sha1Init : Sha1State :=
  ⟨1732584193, 4023233417, 2562383102, 271733878, 3285377520⟩

/-- One SHA-1 round: `tw` is the pair (round index, schedule word). -/
def sha1Round (st : Sha1State) (tw : Nat × Nat) : Sha1State :=
  { a := w32 (rotl 5 st.a + sha1F tw.1 st.b st.c st.d + st.e + sha1K tw.1 + tw.2)
    b := st.a
    c := rotl 30 st.b
    d := st.c
    e := st.d }

/-- Process one 64-byte block. -/
def sha1Block (h : Sha1State) (block : List Nat) : Sha1State :=
  let ws := (sha1Extend (bytesToWords block).reverse 64).reverse
  let st := ws.enum.foldl sha1Round h
  { a := w32 (h.a + st.a), b := w32 (h.b + st.b), c := w32 (h.c + st.c)
    d := w32 (h.d + st.d), e := w32 (h.e + st.e) }

/-- SHA-1 digest of a byte list (Go `crypto/sha1`). -/
def sha1 (msg : List Nat) : List Nat :=
  let fin := (chunksOf64 (sha1Pad msg)).foldl sha1Block sha1Init
  beBytes 4 fin.a ++ beBytes 4 fin.b ++ beBytes 4 fin.c ++ beBytes 4 fin.d ++ beBytes 4 fin.e

/-- HMAC-SHA1 (Go `crypto/hmac` with `sha1.New`): block size 64. -/
def hmacSha1 (key msg : List Nat) : List Nat :=
  let k0 := if key.length > 64 then sha1 key else key
  let k := k0 ++ List.replicate (64 - k0.length) 0
  sha1 ((k.map (fun b => b ^^^ 92)) ++ sha1 ((k.map (fun b => b ^^^ 54)) ++ msg))

/-- The standard base64 alphabet, as ASCII byte values. -/
def b64Table : List Nat :=
  (List.range 26).map (fun i => 65 + i) ++ (List.range 26).map (fun i => 97 + i) ++
    (List.range 10).map (fun i => 48 + i) ++ [43, 47]

/-- Alphabet lookup for a 6-bit group. -/
def b64Char (i : Nat) : Nat := b64Table.getD i 65

/-- Standard base64 encoding (Go `encoding/base64.StdEncoding`), producing
ASCII byte values; 61 is the pad character. -/
def base64Encode : List Nat → List Nat
  | b0 :: b1 :: b2 :: rest =>
      let n := (b0 <<< 16) ||| (b1 <<< 8) ||| b2
      b64Char (n >>> 18) :: b64Char ((n >>> 12) % 64) :: b64Char ((n >>> 6) % 64) ::
        b64Char (n % 64) :: base64Encode rest
  | [b0, b1] =>
      let n := (b0 <<< 16) ||| (b1 <<< 8)
      [b64Char (n >>> 18), b64Char ((n >>> 12) % 64), b64Char ((n >>> 6) % 64), 61]
  | [b0] =>
      let n := b0 <<< 16
      [b64Char (n >>> 18), b64Char ((n >>> 12) % 64), 61, 61]
  | [] => []

/-- UTF-8 encoding of one character (Go strings are UTF-8 byte sequences). -/
def utf8EncodeChar (c : Char) : List Nat :=
  let n := c.toNat
  if n < 128 then [n]
  else if n < 2048 then [192 ||| (n >>> 6), 128 ||| (n % 64)]
  else if n < 65536 then [224 ||| (n >>> 12), 128 ||| ((n >>> 6) % 64), 128 ||| (n % 64)]
  else [240 ||| (n >>> 18), 128 ||| ((n >>> 12) % 64), 128 ||| ((n >>> 6) % 64), 128 ||| (n % 64)]

/-- The UTF-8 bytes of a string, modelling Go `[]byte(s)`. -/
def utf8Bytes (s : String) : List Nat := (s.data.map utf8EncodeChar).flatten

/-- The string whose characters are the given (ASCII) byte values,
modelling Go `string(bs)` for ASCII data. -/
def asciiOfBytes (bs : List Nat) : String := String.mk (bs.map Char.ofNat)

/-- Go `strings.Split` with a one-character separator, structurally on the
character list (Lean's `String.splitOn` is defined by well-founded
recursion, which a kernel evaluation cannot unfold). -/
def splitOnCharGo (sep : Char) : List Char → List Char → List String
  | [], acc => [String.mk acc.reverse]
  | c :: cs, acc =>
      if c = sep then String.mk acc.reverse :: splitOnCharGo sep cs []
      else splitOnCharGo sep cs (c :: acc)

/-- Go `strings.Split s (String.singleton sep)`. -/
def goSplit (s : String) (sep : Char) : List String := splitOnCharGo sep s.data []

/-! ### Identifier types (msg.go lines 38-55) -/

/-- A message UUID is its sixteen bytes (`satori/go.uuid` wraps `[16]byte`). -/
structure MsgUUID where
  bytes : List Nat
deriving DecidableEq

/-- `NilMsgUUID` — the zero-value message UUID (msg.go line 44). -/
def NilMsgUUID : MsgUUID := ⟨List.replicate 16 0⟩

/-- Value of one hexadecimal digit. -/
def hexVal (c : Char) : Option Nat :=
  if c.isDigit then some (c.toNat - 48)
  else if 97 ≤ c.toNat ∧ c.toNat ≤ 102 then some (c.toNat - 87)
  else if 65 ≤ c.toNat ∧ c.toNat ≤ 70 then some (c.toNat - 55)
  else none

/-- Parse a list of hex digits, two per byte. -/
def parseHexPairs : List Char → Option (List Nat)
  | [] => some []
  | c1 :: c2 :: rest =>
      match hexVal c1, hexVal c2, parseHexPairs rest with
      | some h, some l, some bs => some ((h * 16 + l) :: bs)
      | _, _, _ => none
  | _ => none

/-- Modelled from the spec: `uuid.FromString` of the external satori
go.uuid library (not under src/) parses a textual UUID, returning the
zero UUID together with an error on malformed input.  We model the
canonical hyphenated 8-4-4-4-12 form; `none` is the error case. -/
def uuidFromString (s : String) : Option (List Nat) :=
  match goSplit s '-' with
  | [a, b, c, d, e] =>
      if a.length = 8 ∧ b.length = 4 ∧ c.length = 4 ∧ d.length = 4 ∧ e.length = 12 then
        parseHexPairs (a.data ++ b.data ++ c.data ++ d.data ++ e.data)
      else none
  | _ => none

/-- `NewMsgUUIDFromString` (msg.go lines 51-55): the parse error from
`uuid.FromString` is discarded with `_`, and the (zero on failure) UUID
value is wrapped; the function is total and never reports failure. -/
def NewMsgUUIDFromString (uuidString : String) : MsgUUID :=
  match uuidFromString uuidString with
  | some bs => ⟨bs⟩
  | none => ⟨List.replicate 16 0⟩

/-! ### Canonical status vocabulary -/

/-- Modelled from the spec: the canonical status vocabulary exposed to the
backend is Wired | Sent | Delivered | Failed | Errored (the courier core
`MsgStatusValue` constants are referenced by src/msg.go but their
declaration is not under src/). -/
inductive MsgStatusValue
  | MsgWired
  | MsgSent
  | MsgDelivered
  | MsgFailed
  | MsgErrored
deriving DecidableEq

/-! ### Request signing / verification framework (msg.go lines 406-470) -/

/-- Go `url.Values`: a mapping from form key to its ordered values.  We keep
the insertion order of keys to be able to state order-independence. -/
abbrev FormValues := List (String × List String)

/-- Go `form[k]`: the ordered value list of a key (empty when absent). -/
def formGet (form : FormValues) (k : String) : List String :=
  (form.lookup k).getD []

/-- First value of a form key, Go `Values.Get` (empty string when absent). -/
def formValue (form : FormValues) (k : String) : String :=
  (formGet form k).headD ""

/-- `twCalculateSignature` (msg.go lines 443-470): write the URL into the
buffer; collect the form keys and sort them; for each key write the key and
then each of its values; HMAC-SHA1 the buffer with the auth token as key and
base64-encode the digest.  The result is the encoded signature as bytes. -/
def twCalculateSignature (url : String) (form : FormValues) (authToken : String) : List Nat :=
  let keys := form.map Prod.fst
  let sortedKeys := keys.mergeSort (fun a b => decide (a ≤ b))
  let buffer := sortedKeys.foldl
    (fun buf k => (formGet form k).foldl (fun b v => b ++ v) (buf ++ k)) url
  base64Encode (hmacSha1 (utf8Bytes authToken) (utf8Bytes buffer))

/-- Reference signature, following the spec text: "concatenate the URL
string; then, for each parameter key in ascending lexicographic order,
append the key followed by the concatenation of all its values in original
order; HMAC this byte sequence with SHA-1 using the secret as key;
base64-encode the raw digest." -/
def twSignatureRef (url : String) (form : FormValues) (secret : String) : List Nat :=
  let sortedKeys := (form.map Prod.fst).mergeSort (fun a b => decide (a ≤ b))
  let payload := url ++ String.join (sortedKeys.map (fun k => k ++ String.join (formGet form k)))
  base64Encode (hmacSha1 (utf8Bytes secret) (utf8Bytes payload))

/-- OR-accumulated XOR over corresponding bytes, as in Go
`crypto/subtle.ConstantTimeCompare` (the standard library routine behind
`crypto/hmac.Equal`, which the source calls at msg.go line 435). -/
def ctXorFold : List Nat → List Nat → Nat
  | x :: xs, y :: ys => (x ^^^ y) ||| ctXorFold xs ys
  | _, _ => 0

/-- Byte positions examined by the XOR accumulation: one step per byte
pair, with no early exit on a mismatch. -/
def ctXorFoldSteps : List Nat → List Nat → Nat
  | _ :: xs, _ :: ys => 1 + ctXorFoldSteps xs ys
  | _, _ => 0

/-- Go `crypto/hmac.Equal`: false immediately on a length mismatch,
otherwise the XOR accumulation over all bytes must be zero. -/
def hmacEqual (x y : List Nat) : Bool :=
  if x.length ≠ y.length then false
  else ctXorFold x y = 0

/-- A channel configuration value, as the Go `interface` value returned by
`Channel.ConfigForKey`: a string, or some non-string value. -/
inductive ConfigValue
  | str (s : String)
  | nonString
deriving DecidableEq

/-- Errors produced by `validateSignature` and surfaced by the handlers. -/
inductive HandlerErr
  | missingSignature
  | parseFormErr
  | configErr
  | invalidSignature
deriving DecidableEq

/-- The fields of an inbound HTTP request that the handler reads.  A Go
`Header.Get` of an absent header yields the empty string, so absence is
modelled as the empty string, exactly as the source tests it. -/
structure WebRequest where
  host : String
  requestURI : String
  forwardedPath : String
  signature : String
  parseFormOk : Bool
  postForm : FormValues
  idQueryParam : String
deriving DecidableEq

/-- The URL signed by `validateSignature` (msg.go lines 422-428): the
forwarded-path header substitutes for the request path when present. -/
def signatureURL (r : WebRequest) : String :=
  "https://" ++ r.host ++ (if r.forwardedPath ≠ "" then r.forwardedPath else r.requestURI)

/-- `validateSignature` (msg.go lines 406-440): missing header, form-parse
failure, missing/non-string auth token, then constant-time comparison of
the expected signature against the presented one. -/
def validateSignature (confAuth : ConfigValue) (r : WebRequest) : Except HandlerErr Unit :=
  if r.signature = "" then .error .missingSignature
  else if ¬ r.parseFormOk then .error .parseFormErr
  else
    match confAuth with
    | .nonString => .error .configErr
    | .str authToken =>
        if authToken = "" then .error .configErr
        else
          let expected := twCalculateSignature (signatureURL r) r.postForm authToken
          if hmacEqual expected (utf8Bytes r.signature) then .ok ()
          else .error .invalidSignature

/-! ### Status callbacks (msg.go lines 202-303) -/

/-- `statusMapping` (msg.go lines 208-214), the provider status table. -/
def statusMapping (s : String) : Option MsgStatusValue :=
  if s = "queued" then some .MsgSent
  else if s = "failed" then some .MsgFailed
  else if s = "sent" then some .MsgSent
  else if s = "delivered" then some .MsgDelivered
  else if s = "undelivered" then some .MsgFailed
  else none

/-- The `statusForm` fields (msg.go lines 202-206). -/
structure StatusForm where
  MessageSID : String
  MessageStatus : String
  ErrorCode : String
deriving DecidableEq

/-- Modelled from the spec: `handlers.DecodeAndValidateForm` (not under
src/) decodes the request form into the typed struct by field name;
`validate:"required"` fields must be non-empty. -/
def decodeStatusForm (form : FormValues) : StatusForm :=
  { MessageSID := formValue form "MessageSID"
    MessageStatus := formValue form "MessageStatus"
    ErrorCode := formValue form "ErrorCode" }

/-- Fold decimal digits left to right; `none` on a non-digit. -/
def parseDigitsGo : List Char → Nat → Option Nat
  | [], acc => some acc
  | c :: cs, acc =>
      if c.isDigit then parseDigitsGo cs (acc * 10 + (c.toNat - 48))
      else none

/-- Go `strconv.ParseInt(s, 10, 64)`: optional sign, non-empty digit
string, 64-bit signed range. -/
def parseInt64 (s : String) : Option Int :=
  let (neg, digits) :=
    match s.data with
    | '-' :: rest => (true, rest)
    | '+' :: rest => (false, rest)
    | l => (false, l)
  if digits = [] then none
  else
    match parseDigitsGo digits 0 with
    | none => none
    | some n =>
        let v : Int := if neg then -(n : Int) else (n : Int)
        if v < -(2 ^ 63) ∨ v > 2 ^ 63 - 1 then none else some v

/-- Go `strconv`-style parse of a non-negative decimal (for `NumMedia`). -/
def parseNatGo (s : String) : Option Nat :=
  if s.data = [] then none else parseDigitsGo s.data 0

/-- How a status update is addressed to the backend: by the explicit `id`
query parameter, or by the provider external identifier. -/
inductive StatusTarget
  | byID (id : Int)
  | byExternalID (sid : String)
deriving DecidableEq

/-- The error message built at msg.go line 278. -/
def unknownStatusMessage (s : String) : String :=
  "unknown status \x27" ++ s ++
    "\x27, must be one of \x27queued\x27, \x27failed\x27, \x27sent\x27, \x27delivered\x27, or \x27undelivered\x27"

/-- Observable outcome of `receiveStatus`. -/
inductive StatusOutcome
  | rejected (e : HandlerErr)
  | ignoredNoStatus
  | unknownStatus (msg : String)
  | ignoredDeliveryReport
  | statusWritten (t : StatusTarget) (v : MsgStatusValue)
deriving DecidableEq

/-- The part of `receiveStatus` (msg.go lines 269-302) that runs after a
successful signature check. -/
def receiveStatusPostAuth (ignoreDeliveryReports : Bool) (r : WebRequest) : StatusOutcome :=
    let form := decodeStatusForm r.postForm
    if form.MessageSID = "" ∨ form.MessageStatus = "" then .ignoredNoStatus
    else
      match statusMapping form.MessageStatus with
      | none => .unknownStatus (unknownStatusMessage form.MessageStatus)
      | some msgStatus =>
          if ignoreDeliveryReports ∧ msgStatus ≠ .MsgFailed then .ignoredDeliveryReport
          else
            let target :=
              if r.idQueryParam ≠ "" then
                match parseInt64 r.idQueryParam with
                | some n => StatusTarget.byID n
                | none => StatusTarget.byExternalID form.MessageSID
              else StatusTarget.byExternalID form.MessageSID
            .statusWritten target msgStatus

/-- `receiveStatus` (msg.go lines 262-303).  `ignoreDeliveryReports` is the
handler flag saved by `Initialize` (msg.go lines 183-184) from the server
configuration. -/
def receiveStatus (ignoreDeliveryReports : Bool) (confAuth : ConfigValue) (r : WebRequest) :
    StatusOutcome :=
  match validateSignature confAuth r with
  | .error e => .rejected e
  | .ok _ => receiveStatusPostAuth ignoreDeliveryReports r

/-! ### Inbound messages (msg.go lines 191-260) -/

/-- The `moForm` fields (msg.go lines 191-200). -/
structure MoForm where
  MessageSID : String
  AccountSID : String
  From : String
  FromCountry : String
  To : String
  ToCountry : String
  Body : String
  NumMedia : Nat
deriving DecidableEq

/-- Modelled from the spec: `handlers.DecodeAndValidateForm` for `moForm`;
`MessageSID`, `AccountSID`, `From` and `To` carry `validate:"required"`,
and the integer field must parse (absent means zero). -/
def decodeMoForm (form : FormValues) : Option MoForm :=
  let numMediaStr := formValue form "NumMedia"
  match (if numMediaStr = "" then some 0 else parseNatGo numMediaStr) with
  | none => none
  | some nm =>
      let f : MoForm :=
        { MessageSID := formValue form "MessageSID"
          AccountSID := formValue form "AccountSID"
          From := formValue form "From"
          FromCountry := formValue form "FromCountry"
          To := formValue form "To"
          ToCountry := formValue form "ToCountry"
          Body := formValue form "Body"
          NumMedia := nm }
      if f.MessageSID ≠ "" ∧ f.AccountSID ≠ "" ∧ f.From ≠ "" ∧ f.To ≠ "" then some f
      else none

/-- Go `strings.TrimLeft(s, "+")`: remove every leading `+`. -/
def trimLeftPlus (s : String) : String := String.mk (s.data.dropWhile (fun c => c = '+'))

/-- Modelled from the spec: `urns.NewWhatsAppURN` (external gocommon
library): a well-formed WhatsApp identifier is a non-empty digit string
and yields the canonical scheme-qualified URN; malformed inputs fail with
a URN validation error. -/
def newWhatsAppURN (addr : String) : Except Unit String :=
  if addr.isEmpty then .error ()
  else if addr.data.all Char.isDigit then .ok ("whatsapp:" ++ addr)
  else .error ()

/-- Modelled from the spec: `urns.NewTelURNForCountry` (external gocommon
library): a telephone identifier parsed with an optional country hint;
we model only the success/failure split on emptiness, as no claim depends
on telephone normalisation details. -/
def newTelURNForCountry (addr country : String) : Except Unit String :=
  if addr.isEmpty then .error () else .ok ("tel:" ++ addr)

/-- The WhatsApp-scheme URN construction of msg.go lines 232-237:
`parts := strings.Split(form.From, ":")` followed by `parts[1]`.  When the
address contains no `:`, `parts` has a single element and the Go index
expression panics; `none` models that panic. -/
def moURNForWhatsApp (fromAddr : String) : Option (Except Unit String) :=
  let parts := goSplit fromAddr ':' 
  match parts[1]? with
  | none => none
  | some p => some (newWhatsAppURN (trimLeftPlus p))

/-- Backend/builder interactions performed by `receiveMessage`. -/
inductive BackendCall
  | newIncomingMsg (urn : String) (body : String)
  | withAttachment (url : String)
  | writeMsgs
deriving DecidableEq

/-- Observable outcome of `receiveMessage`. -/
inductive MoOutcome
  | rejected (e : HandlerErr)
  | validationErr
  | urnErr
  | panicked
  | received (urn : String) (body : String) (attachments : List String) (externalID : String)
deriving DecidableEq

/-- The part of `receiveMessage` (msg.go lines 223-259) that runs after a
successful signature check. -/
def receiveMessagePostAuth (isWhatsAppChannel : Bool)
    (decodePossibleBase64 : String → String) (r : WebRequest) : MoOutcome × List BackendCall :=
    match decodeMoForm r.postForm with
    | none => (.validationErr, [])
    | some form =>
      let urnRes : Option (Except Unit String) :=
        if isWhatsAppChannel then moURNForWhatsApp form.From
        else some (newTelURNForCountry form.From form.FromCountry)
      match urnRes with
      | none => (.panicked, [])
      | some (.error _) => (.urnErr, [])
      | some (.ok urn) =>
        let body := if form.Body ≠ "" then decodePossibleBase64 form.Body else form.Body
        let attachments :=
          (List.range form.NumMedia).map (fun i => formValue r.postForm ("MediaUrl" ++ toString i))
        (.received urn body attachments form.MessageSID,
          .newIncomingMsg urn body :: (attachments.map BackendCall.withAttachment ++ [.writeMsgs]))

/-- `receiveMessage` (msg.go lines 216-260).  `decodePossibleBase64`
(handlers package, not under src/) is kept as a parameter: the spec fixes
only that it recovers base64-encoded concatenated bodies.  The second
component records every backend/builder interaction, in order. -/
def receiveMessage (isWhatsAppChannel : Bool) (confAuth : ConfigValue)
    (decodePossibleBase64 : String → String) (r : WebRequest) : MoOutcome × List BackendCall :=
  match validateSignature confAuth r with
  | .error e => (.rejected e, [])
  | .ok _ => receiveMessagePostAuth isWhatsAppChannel decodePossibleBase64 r

/-- Decidable equality for `Except` results. -/
instance {e a : Type} [DecidableEq e] [DecidableEq a] : DecidableEq (Except e a)
  | .error x, .error y =>
      if h : x = y then .isTrue (by rw [h]) else .isFalse (by simp [h])
  | .error _, .ok _ => .isFalse (by simp)
  | .ok _, .error _ => .isFalse (by simp)
  | .ok x, .ok y =>
      if h : x = y then .isTrue (by rw [h]) else .isFalse (by simp [h])

/-! ### Outbound sends (msg.go lines 305-403) -/

/-- `errorStopped` (msg.go line 162): the provider error code meaning the
contact has opted out. -/
def errorStopped : Int := 21610

/-- `maxMsgLength` (msg.go line 157). -/
def maxMsgLength : Nat := 1600

/-- Greedy chunking of a character list into pieces of at most `limit`
characters (fuel-indexed for structural recursion). -/
def splitMsgGo : Nat → List Char → Nat → List String
  | _, [], _ => []
  | 0, _, _ => []
  | fuel + 1, c :: cs, limit => String.mk ((c :: cs).take limit) :: splitMsgGo fuel ((c :: cs).drop limit) limit

/-- Modelled from the spec: `handlers.SplitMsg` (not under src/) segments
the body into the minimum number of ordered, non-empty segments each within
the limit; a body within the limit is returned whole (possibly empty). -/
def splitMsg (text : String) (limit : Nat) : List String :=
  if text.data.length ≤ limit then [text]
  else splitMsgGo text.data.length text.data limit

/-- The channel configuration and identity read by `SendMsg`.  String
configuration keys default to the empty string (`StringConfigForKey`);
`sendURLValid` models whether `utils.AddURLPath` accepts the configured
base send URL. -/
structure TwChannel where
  accountSID : String
  authToken : String
  messagingServiceSID : String
  address : String
  isWhatsAppScheme : Bool
  sendURLValid : Bool
  callbackDomain : String
  channelTypeLower : String
  channelUUID : String
deriving DecidableEq

/-- The outbound message fields read by `SendMsg`. -/
structure TwOutMsg where
  id : Int
  urnPath : String
  text : String
  attachments : List String
deriving DecidableEq

/-- The provider response to one segment request, as the source observes it
through `utils.MakeHTTPRequest` and `jsonparser`: `transportErr` is a
non-nil error return; `hasBody` whether a response body was captured;
`code` the result of `jsonparser.GetInt(body, "code")` (0 when absent or
unparseable, the error being discarded); `sid` the result of
`jsonparser.GetString(body, "sid")` (`none` when it fails). -/
structure TwResponse where
  transportErr : Bool
  hasBody : Bool
  code : Int
  sid : Option String
deriving DecidableEq

/-- The per-segment request form (msg.go lines 327-351). -/
structure TwForm where
  To : String
  Body : String
  StatusCallback : String
  MediaUrl : Option String
  MessagingServiceSid : Option String
  From : Option String
deriving DecidableEq

/-- Modelled from the spec: `handlers.SplitAttachment` (not under src/)
splits an attachment reference into its declared content type and its URL;
we extract the URL part after the first colon. -/
def attachmentURL (a : String) : String :=
  match goSplit a ':' with
  | [] => a
  | [x] => x
  | _ :: rest => String.intercalate ":" rest

/-- The request form built for segment `i` (msg.go lines 327-351): media
URL only on the first segment; a configured messaging service takes
precedence over the direct sender address; WhatsApp channels prefix the
scheme onto `To` and `From`.  In the WhatsApp branch the source assigns
`form["From"][0]` unconditionally, which panics (`none`) when a messaging
service is configured and `From` was therefore never set. -/
def buildSendForm (ch : TwChannel) (msg : TwOutMsg) (callbackURL : String) (i : Nat)
    (part : String) : Option TwForm :=
  let f0 : TwForm :=
    { To := msg.urnPath, Body := part, StatusCallback := callbackURL
      MediaUrl := none, MessagingServiceSid := none, From := none }
  let f1 :=
    if msg.attachments.length > 0 ∧ i = 0 then
      { f0 with MediaUrl := some (attachmentURL (msg.attachments.headD "")) }
    else f0
  let f2 :=
    if ch.messagingServiceSID ≠ "" then { f1 with MessagingServiceSid := some ch.messagingServiceSID }
    else { f1 with From := some ch.address }
  if ch.isWhatsAppScheme then
    match f2.From with
    | none => none
    | some f => some { f2 with To := "whatsapp:+" ++ f2.To, From := some ("whatsapp:" ++ f) }
  else some f2

/-- Failure modes of `SendMsg` that surface as a Go error (or panic)
rather than as a returned status. -/
inductive SendErr
  | missingAccountSID
  | missingAuthToken
  | addURLPathErr
  | panicked
deriving DecidableEq

/-- The observable result of a send: the final status value, the recorded
provider external identifier, the number of `StopMsgContact` backend calls,
and the number of segment requests actually transmitted. -/
structure SendOutcome where
  status : MsgStatusValue
  externalID : Option String
  stops : Nat
  attempted : Nat
deriving DecidableEq

/-- The status a `MessageStatus` is created with at msg.go line 323. -/
def initialSendStatus : MsgStatusValue := .MsgErrored

/-- The segment loop of `SendMsg` (msg.go lines 325-400).  `resp i` is the
provider response to the `i`-th segment request.  Classification follows
the source exactly: a transport error with a body whose `code` parses
non-zero returns immediately (Failed plus a `StopMsgContact` call when the
code is `errorStopped`, otherwise the status is left as it was); a bare
transport error returns; a missing `sid` returns; success sets Wired and
records the external identifier only for segment 0. -/
def sendSegs (ch : TwChannel) (msg : TwOutMsg) (callbackURL : String) (resp : Nat → TwResponse) :
    Nat → List String → SendOutcome → Except SendErr SendOutcome
  | _, [], st => .ok st
  | i, part :: rest, st =>
    match buildSendForm ch msg callbackURL i part with
    | none => .error .panicked
    | some _ =>
      if ¬ ch.sendURLValid then .error .addURLPathErr
      else
        let rr := resp i
        let st := { st with attempted := st.attempted + 1 }
        if rr.transportErr ∧ rr.hasBody ∧ rr.code ≠ 0 then
          if rr.code = errorStopped then
            .ok { st with status := .MsgFailed, stops := st.stops + 1 }
          else .ok st
        else if rr.transportErr then .ok st
        else
          match rr.sid with
          | none => .ok st
          | some sid =>
            let st := { st with status := .MsgWired }
            let st := if i = 0 then { st with externalID := some sid } else st
            sendSegs ch msg callbackURL resp (i + 1) rest st

/-- The status callback URL built at msg.go line 309. -/
def callbackURLOf (ch : TwChannel) (msg : TwOutMsg) : String :=
  "https://" ++ ch.callbackDomain ++ "/c/" ++ ch.channelTypeLower ++ "/" ++ ch.channelUUID ++
    "/status?id=" ++ toString msg.id ++ "&action=callback"

/-- `SendMsg` (msg.go lines 305-403): credential checks, then the segment
loop starting from a `MessageStatus` initialised to `initialSendStatus`. -/
def SendMsg (ch : TwChannel) (msg : TwOutMsg) (resp : Nat → TwResponse) :
    Except SendErr SendOutcome :=
  if ch.accountSID = "" then .error .missingAccountSID
  else if ch.authToken = "" then .error .missingAuthToken
  else
    sendSegs ch msg (callbackURLOf ch msg) resp 0 (splitMsg msg.text maxMsgLength)
      { status := initialSendStatus, externalID := none, stops := 0, attempted := 0 }

/-- A successful segment response: no transport error and a `sid` that
`jsonparser.GetString` can extract. -/
def respOK (r : TwResponse) : Bool := !r.transportErr && r.sid.isSome

/-- A halting provider failure as described by the claim: either an error
body carrying a code other than the recognised opt-out code, or a
transport-level error with no parseable response. -/
def respHardFail (r : TwResponse) : Bool :=
  r.transportErr && ((r.hasBody && (r.code != 0) && (r.code != errorStopped)) || !r.hasBody)

/-- A response carrying the recognised opt-out error code. -/
def respOptOut (r : TwResponse) : Bool :=
  r.transportErr && r.hasBody && (r.code == errorStopped)

/-! ### Concrete instances used by witnesses and counterexamples -/

/-- A configured auth token shared by the concrete requests below. -/
def authTok : ConfigValue := .str "token123"

/-- A request over `https://host ++ uri` carrying exactly the signature
that `validateSignature` will expect for its form under `tok`. -/
def signedRequest (tok host uri : String) (form : FormValues) (idq : String) : WebRequest :=
  { host := host, requestURI := uri, forwardedPath := ""
    signature := asciiOfBytes (twCalculateSignature ("https://" ++ host ++ uri) form tok)
    parseFormOk := true, postForm := form, idQueryParam := idq }

/-- Status callback with an unrecognised provider status, validly signed. -/
def reqStatusBogus : WebRequest :=
  signedRequest "token123" "example.com" "/c/t/abc/status"
    [("MessageSID", ["SM123"]), ("MessageStatus", ["bogus"])] ""

/-- Status callback reporting `delivered`, validly signed. -/
def reqStatusDelivered : WebRequest :=
  signedRequest "token123" "example.com" "/c/t/abc/status"
    [("MessageSID", ["SM123"]), ("MessageStatus", ["delivered"])] ""

/-- Status callback reporting `failed`, validly signed. -/
def reqStatusFailed : WebRequest :=
  signedRequest "token123" "example.com" "/c/t/abc/status"
    [("MessageSID", ["SM123"]), ("MessageStatus", ["failed"])] ""

/-- Inbound message whose `From` contains no `:` delimiter, validly
signed. -/
def reqMoNoColon : WebRequest :=
  signedRequest "token123" "example.com" "/c/t/abc/receive"
    [("MessageSID", ["SM9"]), ("AccountSID", ["AC1"]), ("From", ["+12345678"]),
      ("To", ["+15550001111"])] ""

/-- Inbound message with a well-formed WhatsApp `From`, validly signed. -/
def reqMoWhatsApp : WebRequest :=
  signedRequest "token123" "example.com" "/c/t/abc/receive"
    [("MessageSID", ["SM9"]), ("AccountSID", ["AC1"]),
      ("From", ["whatsapp:+12211414154"]), ("To", ["+15550001111"])] ""

/-- A request bearing a syntactically present but wrong signature. -/
def reqBadSig : WebRequest :=
  { host := "example.com", requestURI := "/c/t/abc/receive", forwardedPath := ""
    signature := "AAAA", parseFormOk := true
    postForm := [("MessageSID", ["SM9"]), ("AccountSID", ["AC1"]), ("From", ["+15550001111"]),
      ("To", ["+15550002222"])]
    idQueryParam := "" }

/-- A request with no signature header at all. -/
def reqNoSig : WebRequest :=
  { reqBadSig with signature := "" }

/-- A fully configured (non-WhatsApp) channel. -/
def twCh : TwChannel :=
  { accountSID := "AC1", authToken := "token123", messagingServiceSID := ""
    address := "+15550009999", isWhatsAppScheme := false, sendURLValid := true
    callbackDomain := "example.com", channelTypeLower := "t", channelUUID := "uuid1" }

/-- A single-segment outbound message. -/
def twMsgShort : TwOutMsg :=
  { id := 101, urnPath := "+12065551212", text := "hello", attachments := [] }

/-- A 1601-character body: two segments at the 1600-character limit. -/
def longText : String := String.mk (List.replicate 1601 'a')

/-- A two-segment outbound message with one attachment. -/
def twMsgLong : TwOutMsg :=
  { id := 102, urnPath := "+12065551212", text := longText
    attachments := ["image/jpeg:https://example.com/a.jpg"] }

/-- Every segment request succeeds, with distinct provider identifiers. -/
def respAllOk : Nat → TwResponse :=
  fun i => { transportErr := false, hasBody := true, code := 0, sid := some ("SM" ++ toString i) }

/-- Segment 0 succeeds; segment 1 fails with a bare transport error. -/
def respOkThenTransport : Nat → TwResponse := fun i =>
  if i = 0 then { transportErr := false, hasBody := true, code := 0, sid := some "SM0" }
  else { transportErr := true, hasBody := false, code := 0, sid := none }

/-- Segment 0 succeeds; segment 1 returns the opt-out error code. -/
def respOkThenStop : Nat → TwResponse := fun i =>
  if i = 0 then { transportErr := false, hasBody := true, code := 0, sid := some "SM0" }
  else { transportErr := true, hasBody := true, code := 21610, sid := none }

/-- Every segment fails with a non-opt-out provider error code. -/
def respBadCode : Nat → TwResponse :=
  fun _ => { transportErr := true, hasBody := true, code := 30001, sid := none }

/-! ## Supporting lemmas -/

theorem lor_eq_zero_iff (a b : Nat) : a ||| b = 0 ↔ a = 0 ∧ b = 0 := by
  constructor
  · intro h
    have hs : ∀ i, a.testBit i = false ∧ b.testBit i = false := by
      intro i
      have h2 := congrArg (fun t => Nat.testBit t i) h
      simpa using h2
    exact ⟨Nat.eq_of_testBit_eq (fun i => by simp [(hs i).1]),
      Nat.eq_of_testBit_eq (fun i => by simp [(hs i).2])⟩
  · rintro ⟨rfl, rfl⟩
    rfl

theorem ctXorFold_self : ∀ x : List Nat, ctXorFold x x = 0
  | [] => rfl
  | a :: xs => by simp [ctXorFold, ctXorFold_self xs]

theorem hmacEqual_self (x : List Nat) : hmacEqual x x = true := by
  simp [hmacEqual, ctXorFold_self]

theorem ctXorFold_eq_zero :
    ∀ (x y : List Nat), x.length = y.length → (ctXorFold x y = 0 ↔ x = y)
  | [], [], _ => by simp [ctXorFold]
  | [], _ :: _, h => by simp at h
  | _ :: _, [], h => by simp at h
  | a :: xs, b :: ys, h => by
    have ih := ctXorFold_eq_zero xs ys (by simpa using h)
    simp only [ctXorFold, lor_eq_zero_iff, Nat.xor_eq_zero, ih, List.cons.injEq]

theorem hmacEqual_iff (x y : List Nat) : hmacEqual x y = true ↔ x = y := by
  by_cases h : x.length = y.length
  · simp [hmacEqual, h, ctXorFold_eq_zero x y h]
  · simp only [hmacEqual, if_pos h]
    constructor
    · intro contra
      exact absurd contra (by simp)
    · intro e
      exact absurd (by rw [e]) h

theorem ctXorFoldSteps_eq_min : ∀ x y : List Nat, ctXorFoldSteps x y = min x.length y.length
  | [], [] => rfl
  | [], _ :: _ => by simp [ctXorFoldSteps]
  | _ :: _, [] => by simp [ctXorFoldSteps]
  | a :: xs, b :: ys => by
    simp [ctXorFoldSteps, ctXorFoldSteps_eq_min xs ys, Nat.succ_min_succ, Nat.add_comm]

/-! ## Claim theorems -/

/-- C4: signature verification compares the presented signature against the
expected one with `hmac.Equal`, whose comparison is correct (true exactly on
equal byte strings) and constant-time in the sense that the number of byte
comparison steps it performs depends only on the lengths of its inputs —
never on the position of the first differing byte. -/
theorem hmacEqual_constant_time :
    (∀ x y : List Nat, hmacEqual x y = true ↔ x = y) ∧
    (∀ x y x2 y2 : List Nat, x.length = y.length → x2.length = y2.length →
      x.length = x2.length → ctXorFoldSteps x y = ctXorFoldSteps x2 y2) := by
  refine ⟨hmacEqual_iff, ?_⟩
  intro x y x2 y2 h1 h2 h3
  simp [ctXorFoldSteps_eq_min, ← h1, ← h2, h3]

/-- Witness for C4 at concrete inputs: two pairs of equal-length byte
strings whose first differing positions differ take the same number of
comparison steps. -/
theorem hmacEqual_constant_time_witness :
    hmacEqual [1, 2, 3] [1, 2, 3] = true ∧
    ctXorFoldSteps [0, 1, 2] [9, 1, 2] = ctXorFoldSteps [0, 1, 2] [0, 1, 9] :=
  ⟨(hmacEqual_constant_time.1 [1, 2, 3] [1, 2, 3]).mpr rfl,
    hmacEqual_constant_time.2 [0, 1, 2] [9, 1, 2] [0, 1, 2] [0, 1, 9] rfl rfl rfl⟩

/-- C10: for every input string the parse error of `uuid.FromString` is
silently discarded — `NewMsgUUIDFromString` is total, and on any string
that does not parse as a UUID it returns the nil message UUID. -/
theorem newMsgUUID_nil_on_invalid :
    ∀ s : String, uuidFromString s = none → NewMsgUUIDFromString s = NilMsgUUID := by
  intro s h
  simp [NewMsgUUIDFromString, h, NilMsgUUID]

/-- Witness for C10 at the concrete non-UUID input "not-a-uuid". -/
theorem newMsgUUID_nil_on_invalid_witness :
    uuidFromString "not-a-uuid" = none ∧ NewMsgUUIDFromString "not-a-uuid" = NilMsgUUID :=
  ⟨by decide, newMsgUUID_nil_on_invalid "not-a-uuid" (by decide)⟩

theorem strFoldl_append : ∀ (l : List String) (b : String),
    l.foldl (fun x y => x ++ y) b = b ++ String.join l
  | [], b => by simp [String.join]
  | s :: rest, b => by
    simp only [List.foldl, String.join]
    rw [strFoldl_append rest (b ++ s), strFoldl_append rest ("" ++ s)]
    simp [String.append_assoc]

theorem strJoin_cons (x : String) (l : List String) :
    String.join (x :: l) = x ++ String.join l := by
  simp only [String.join, List.foldl]
  rw [strFoldl_append l ("" ++ x)]
  simp [String.join]

theorem twBuffer_eq (form : FormValues) :
    ∀ (keys : List String) (url : String),
      keys.foldl (fun buf k => (formGet form k).foldl (fun b v => b ++ v) (buf ++ k)) url =
        url ++ String.join (keys.map (fun k => k ++ String.join (formGet form k)))
  | [], url => by simp [String.join]
  | k :: rest, url => by
    simp only [List.foldl, List.map]
    rw [strFoldl_append (formGet form k) (url ++ k), twBuffer_eq form rest, strJoin_cons]
    simp [String.append_assoc]

theorem mergeSort_eq_of_perm (l₁ l₂ : List String) (h : l₁.Perm l₂) :
    l₁.mergeSort (fun a b => decide (a ≤ b)) = l₂.mergeSort (fun a b => decide (a ≤ b)) := by
  have htrans : ∀ a b c : String,
      (fun a b => decide (a ≤ b)) a b → (fun a b => decide (a ≤ b)) b c →
        (fun a b => decide (a ≤ b)) a c := by
    intro a b c h1 h2
    exact decide_eq_true (le_trans (of_decide_eq_true h1) (of_decide_eq_true h2))
  have htotal : ∀ a b : String,
      ((fun a b => decide (a ≤ b)) a b || (fun a b => decide (a ≤ b)) b a) = true := by
    intro a b
    rcases le_total a b with h1 | h1 <;> simp [h1]
  have hs₁ := List.sorted_mergeSort htrans htotal l₁
  have hs₂ := List.sorted_mergeSort htrans htotal l₂
  apply List.eq_of_perm_of_sorted (r := fun a b : String => a ≤ b)
  · exact (List.mergeSort_perm l₁ _).trans (h.trans (List.mergeSort_perm l₂ _).symm)
  · exact hs₁.imp (fun hd => of_decide_eq_true hd)
  · exact hs₂.imp (fun hd => of_decide_eq_true hd)

theorem lookup_perm {l₁ l₂ : FormValues} (h : l₁.Perm l₂)
    (hnd : (l₁.map Prod.fst).Nodup) : ∀ k, List.lookup k l₁ = List.lookup k l₂ := by
  induction h with
  | nil => intro _; rfl
  | cons x p ih =>
    intro k
    have hnd' : ((_ : FormValues).map Prod.fst).Nodup := (List.nodup_cons.mp hnd).2
    by_cases hk : (k == x.1) = true <;> simp [List.lookup, hk, ih hnd' k]
  | swap x y l =>
    intro k
    have hxy : y.1 ≠ x.1 := by
      have h0 := (List.nodup_cons.mp hnd).1
      simp only [List.map, List.mem_cons, not_or] at h0
      exact h0.1
    by_cases hky : (k == y.1) = true <;> by_cases hkx : (k == x.1) = true <;>
      simp only [List.lookup, hky, hkx]
    exact absurd ((eq_of_beq hky).symm.trans (eq_of_beq hkx)) hxy
  | trans p₁ p₂ ih₁ ih₂ =>
    intro k
    have hnd₂ : ((_ : FormValues).map Prod.fst).Nodup := ((p₁.map Prod.fst).nodup_iff).mp hnd
    rw [ih₁ hnd k, ih₂ hnd₂ k]

/-- C2: the computed callback signature equals the reference definition
from the spec (URL, then each key in ascending lexicographic order followed
by the concatenation of its values, HMAC-SHA1 with the secret, base64), and
the result is a pure function of the underlying key-to-values mapping:
reordering parameter insertion order never changes it. -/
theorem twSignature_matches_reference :
    ∀ (url : String) (form form2 : FormValues) (secret : String),
      (form.map Prod.fst).Nodup → form.Perm form2 →
      twCalculateSignature url form secret = twSignatureRef url form secret ∧
      twCalculateSignature url form2 secret = twCalculateSignature url form secret := by
  intro url form form2 secret hnd hperm
  constructor
  · unfold twCalculateSignature twSignatureRef
    dsimp only
    rw [twBuffer_eq]
  · unfold twCalculateSignature
    dsimp only
    have hkeys : (form2.map Prod.fst).Perm (form.map Prod.fst) := (hperm.map Prod.fst).symm
    rw [mergeSort_eq_of_perm _ _ hkeys]
    have hget : ∀ k, formGet form2 k = formGet form k := by
      intro k
      unfold formGet
      rw [lookup_perm hperm hnd k]
    simp only [hget]

/-- Witness for C2 at a concrete two-key form and its reordering. -/
theorem twSignature_matches_reference_witness :
    ((([("B", ["2"]), ("A", ["1", "3"])] : FormValues).map Prod.fst).Nodup ∧
      ([("B", ["2"]), ("A", ["1", "3"])] : FormValues).Perm [("A", ["1", "3"]), ("B", ["2"])]) ∧
    (twCalculateSignature "https://example.com/x" [("B", ["2"]), ("A", ["1", "3"])] "tok" =
        twSignatureRef "https://example.com/x" [("B", ["2"]), ("A", ["1", "3"])] "tok" ∧
      twCalculateSignature "https://example.com/x" [("A", ["1", "3"]), ("B", ["2"])] "tok" =
        twCalculateSignature "https://example.com/x" [("B", ["2"]), ("A", ["1", "3"])] "tok") :=
  ⟨⟨by decide, List.Perm.swap _ _ _⟩,
    twSignature_matches_reference _ _ _ _ (by decide) (List.Perm.swap _ _ _)⟩

theorem toNat_ofNat_lt {b : Nat} (h : b < 128) : (Char.ofNat b).toNat = b := by
  have hv : b.isValidChar := Or.inl (by omega)
  rw [Char.ofNat, dif_pos hv]
  rfl

theorem utf8EncodeChar_ascii {b : Nat} (h : b < 128) : utf8EncodeChar (Char.ofNat b) = [b] := by
  simp only [utf8EncodeChar, toNat_ofNat_lt h]
  rw [if_pos h]

theorem utf8_asciiOfBytes : ∀ (bs : List Nat), (∀ b ∈ bs, b < 128) →
    utf8Bytes (asciiOfBytes bs) = bs
  | [], _ => rfl
  | b :: rest, h => by
    have hb := h b (by simp)
    have hr := utf8_asciiOfBytes rest (fun x hx => h x (by simp [hx]))
    simp only [utf8Bytes, asciiOfBytes] at hr ⊢
    simp only [List.map, List.flatten, utf8EncodeChar_ascii hb]
    rw [hr]
    rfl

theorem length_sha1 (m : List Nat) : (sha1 m).length = 20 := by
  simp [sha1, beBytes]

theorem length_hmacSha1 (k m : List Nat) : (hmacSha1 k m).length = 20 := by
  simp [hmacSha1, length_sha1]

theorem length_base64 : ∀ l : List Nat, (base64Encode l).length = 4 * ((l.length + 2) / 3)
  | [] => rfl
  | [b0] => by simp [base64Encode]
  | [b0, b1] => by simp [base64Encode]
  | b0 :: b1 :: b2 :: rest => by
    simp [base64Encode, length_base64 rest]
    omega

theorem length_twCalculateSignature (url : String) (form : FormValues) (tok : String) :
    (twCalculateSignature url form tok).length = 28 := by
  unfold twCalculateSignature
  dsimp only
  rw [length_base64, length_hmacSha1]

theorem twCalculateSignature_ne_nil (url : String) (form : FormValues) (tok : String) :
    twCalculateSignature url form tok ≠ [] := by
  intro h
  have h2 := congrArg List.length h
  rw [length_twCalculateSignature] at h2
  simp at h2

theorem b64Char_lt (i : Nat) : b64Char i < 128 := by
  unfold b64Char
  rw [List.getD_eq_getElem?_getD]
  cases h : b64Table[i]? with
  | none => simp
  | some x =>
    have hx : x ∈ b64Table := List.getElem?_mem h
    have hall : ∀ y ∈ b64Table, y < 128 := by decide
    simp [hall x hx]

theorem base64_all_lt : ∀ (l : List Nat) (b : Nat), b ∈ base64Encode l → b < 128
  | [], b, h => by simp [base64Encode] at h
  | [b0], b, h => by
    simp [base64Encode] at h
    rcases h with rfl | rfl | rfl
    · exact b64Char_lt _
    · exact b64Char_lt _
    · omega
  | [b0, b1], b, h => by
    simp [base64Encode] at h
    rcases h with rfl | rfl | rfl | rfl
    · exact b64Char_lt _
    · exact b64Char_lt _
    · exact b64Char_lt _
    · omega
  | b0 :: b1 :: b2 :: rest, b, h => by
    simp only [base64Encode, List.mem_cons] at h
    rcases h with rfl | rfl | rfl | rfl | h
    · exact b64Char_lt _
    · exact b64Char_lt _
    · exact b64Char_lt _
    · exact b64Char_lt _
    · exact base64_all_lt rest b h

theorem twCalculateSignature_all_lt (url : String) (form : FormValues) (tok : String) :
    ∀ b ∈ twCalculateSignature url form tok, b < 128 := by
  unfold twCalculateSignature
  dsimp only
  exact fun b hb => base64_all_lt _ b hb

theorem asciiOfBytes_ne_empty {bs : List Nat} (h : bs ≠ []) : asciiOfBytes bs ≠ "" := by
  intro e
  apply h
  have h2 : (asciiOfBytes bs).data = ("" : String).data := by rw [e]
  simp [asciiOfBytes] at h2
  exact h2

theorem validateSignature_signed (tok host uri : String) (form : FormValues) (idq : String)
    (htok : tok ≠ "") :
    validateSignature (.str tok) (signedRequest tok host uri form idq) = .ok () := by
  have hne : asciiOfBytes (twCalculateSignature ("https://" ++ host ++ uri) form tok) ≠ "" :=
    asciiOfBytes_ne_empty (twCalculateSignature_ne_nil _ _ _)
  have hrt : utf8Bytes (asciiOfBytes (twCalculateSignature ("https://" ++ host ++ uri) form tok)) =
      twCalculateSignature ("https://" ++ host ++ uri) form tok :=
    utf8_asciiOfBytes _ (twCalculateSignature_all_lt _ _ _)
  simp [validateSignature, signedRequest, signatureURL, hne, htok, hrt, hmacEqual_self]

/-- C3: every inbound webhook request with no signature header is rejected
with the missing-signature authentication error before any backend
interaction; a present but mismatching signature (computed over the URL,
with the forwarded-path header substituting the path) is rejected as an
invalid signature; a missing or non-string configured secret is rejected
as a configuration error.  In each case the backend call list is empty. -/
theorem receiveMessage_signature_errors :
    ∀ (wa : Bool) (conf : ConfigValue) (dec : String → String) (r : WebRequest),
      (r.signature = "" → receiveMessage wa conf dec r = (.rejected .missingSignature, [])) ∧
      (∀ tok, r.signature ≠ "" → r.parseFormOk = true → conf = .str tok → tok ≠ "" →
        hmacEqual (twCalculateSignature (signatureURL r) r.postForm tok)
            (utf8Bytes r.signature) = false →
        receiveMessage wa conf dec r = (.rejected .invalidSignature, [])) ∧
      (r.signature ≠ "" → r.parseFormOk = true → (conf = .nonString ∨ conf = .str "") →
        receiveMessage wa conf dec r = (.rejected .configErr, [])) := by
  intro wa conf dec r
  refine ⟨?_, ?_, ?_⟩
  · intro h
    simp [receiveMessage, validateSignature, h]
  · intro tok h1 h2 h3 h4 h5
    subst h3
    simp [receiveMessage, validateSignature, h1, h2, h4, h5]
  · intro h1 h2 h3
    rcases h3 with rfl | rfl <;> simp [receiveMessage, validateSignature, h1, h2]

/-- Witness for C3: the three rejection branches at concrete requests. -/
theorem receiveMessage_signature_errors_witness :
    (reqNoSig.signature = "" ∧
      receiveMessage false authTok id reqNoSig = (.rejected .missingSignature, [])) ∧
    (reqBadSig.signature ≠ "" ∧
      receiveMessage false authTok id reqBadSig = (.rejected .invalidSignature, [])) ∧
    receiveMessage false ConfigValue.nonString id reqBadSig = (.rejected .configErr, []) := by
  have hm : hmacEqual
      (twCalculateSignature (signatureURL reqBadSig) reqBadSig.postForm "token123")
      (utf8Bytes reqBadSig.signature) = false := by
    have h28 := length_twCalculateSignature (signatureURL reqBadSig) reqBadSig.postForm "token123"
    have h4 : (utf8Bytes reqBadSig.signature).length = 4 := by decide
    simp [hmacEqual, h28, h4]
  refine ⟨⟨rfl, (receiveMessage_signature_errors false authTok id reqNoSig).1 rfl⟩,
    ⟨by decide, (receiveMessage_signature_errors false authTok id reqBadSig).2.1 "token123"
      (by decide) rfl rfl (by decide) hm⟩,
    (receiveMessage_signature_errors false ConfigValue.nonString id reqBadSig).2.2
      (by decide) rfl (Or.inl rfl)⟩

/-- C5: the provider status table is total over exactly the five strings
queued, failed, sent, delivered, undelivered, mapped to Sent, Failed, Sent,
Delivered, Failed respectively; any other (decoded, hence non-empty) status
string makes the status handler reject the request with the
unrecognised-status error message naming the allowed values. -/
theorem statusMapping_total_exact :
    (statusMapping "queued" = some .MsgSent ∧ statusMapping "failed" = some .MsgFailed ∧
      statusMapping "sent" = some .MsgSent ∧ statusMapping "delivered" = some .MsgDelivered ∧
      statusMapping "undelivered" = some .MsgFailed) ∧
    (∀ s : String, s ∉ ["queued", "failed", "sent", "delivered", "undelivered"] →
      statusMapping s = none) ∧
    (∀ (ign : Bool) (conf : ConfigValue) (r : WebRequest),
      validateSignature conf r = .ok () →
      (decodeStatusForm r.postForm).MessageSID ≠ "" →
      (decodeStatusForm r.postForm).MessageStatus ≠ "" →
      statusMapping (decodeStatusForm r.postForm).MessageStatus = none →
      receiveStatus ign conf r =
        .unknownStatus (unknownStatusMessage (decodeStatusForm r.postForm).MessageStatus)) := by
  refine ⟨⟨rfl, rfl, rfl, rfl, rfl⟩, ?_, ?_⟩
  · intro s hs
    simp only [List.mem_cons, List.not_mem_nil, or_false, not_or] at hs
    obtain ⟨h1, h2, h3, h4, h5⟩ := hs
    simp [statusMapping, h1, h2, h3, h4, h5]
  · intro ign conf r hv hsid hstat hmap
    simp [receiveStatus, hv, receiveStatusPostAuth, hsid, hstat, hmap]

/-- Witness for C5: the not-in-table branch at the concrete status string
"bogus" on a validly signed request. -/
theorem statusMapping_total_exact_witness :
    ("bogus" : String) ∉ ["queued", "failed", "sent", "delivered", "undelivered"] ∧
    statusMapping "bogus" = none ∧
    receiveStatus false authTok reqStatusBogus =
      .unknownStatus (unknownStatusMessage "bogus") := by
  have hv : validateSignature authTok reqStatusBogus = .ok () :=
    validateSignature_signed "token123" "example.com" "/c/t/abc/status"
      [("MessageSID", ["SM123"]), ("MessageStatus", ["bogus"])] "" (by decide)
  exact ⟨by decide, statusMapping_total_exact.2.1 "bogus" (by decide),
    statusMapping_total_exact.2.2 false authTok reqStatusBogus hv (by decide) (by decide)
      (by decide)⟩

/-- C9: with the ignore-delivery-reports flag set, a status callback whose
mapped canonical status is not Failed is acknowledged as ignored with no
backend status update, while any callback mapping to Failed is processed
into a backend status write regardless of the flag. -/
theorem ignoreDeliveryReports_policy :
    ∀ (ign : Bool) (conf : ConfigValue) (r : WebRequest) (v : MsgStatusValue),
      validateSignature conf r = .ok () →
      (decodeStatusForm r.postForm).MessageSID ≠ "" →
      (decodeStatusForm r.postForm).MessageStatus ≠ "" →
      statusMapping (decodeStatusForm r.postForm).MessageStatus = some v →
      ((ign = true ∧ v ≠ .MsgFailed) → receiveStatus ign conf r = .ignoredDeliveryReport) ∧
      (v = .MsgFailed → ∃ t, receiveStatus ign conf r = .statusWritten t .MsgFailed) := by
  intro ign conf r v hv hsid hstat hmap
  constructor
  · rintro ⟨rfl, hne⟩
    simp [receiveStatus, hv, receiveStatusPostAuth, hsid, hstat, hmap, hne]
  · rintro rfl
    refine ⟨if r.idQueryParam ≠ "" then
        (match parseInt64 r.idQueryParam with
          | some n => StatusTarget.byID n
          | none => StatusTarget.byExternalID (decodeStatusForm r.postForm).MessageSID)
      else StatusTarget.byExternalID (decodeStatusForm r.postForm).MessageSID, ?_⟩
    simp [receiveStatus, hv, receiveStatusPostAuth, hsid, hstat, hmap]

/-- Witness for C9: a validly signed `delivered` callback is ignored under
the flag, and a validly signed `failed` callback is still written. -/
theorem ignoreDeliveryReports_policy_witness :
    receiveStatus true authTok reqStatusDelivered = .ignoredDeliveryReport ∧
    ∃ t, receiveStatus true authTok reqStatusFailed = .statusWritten t .MsgFailed := by
  have hv1 : validateSignature authTok reqStatusDelivered = .ok () :=
    validateSignature_signed "token123" "example.com" "/c/t/abc/status"
      [("MessageSID", ["SM123"]), ("MessageStatus", ["delivered"])] "" (by decide)
  have hv2 : validateSignature authTok reqStatusFailed = .ok () :=
    validateSignature_signed "token123" "example.com" "/c/t/abc/status"
      [("MessageSID", ["SM123"]), ("MessageStatus", ["failed"])] "" (by decide)
  exact ⟨(ignoreDeliveryReports_policy true authTok reqStatusDelivered .MsgDelivered hv1
      (by decide) (by decide) (by decide)).1 ⟨rfl, by decide⟩,
    (ignoreDeliveryReports_policy true authTok reqStatusFailed .MsgFailed hv2
      (by decide) (by decide) (by decide)).2 rfl⟩

/-- C6 (code defect): on a WhatsApp-scheme channel the `From` address is
split on `:` and `parts[1]` is read unconditionally, so an address with no
delimiter makes the handler panic (Go index out of range) instead of
returning a URN validation error; a well-formed `whatsapp:+<digits>`
address is split and the leading `+` stripped to form the canonical
identifier. -/
theorem whatsApp_urn_no_delimiter_panics :
    moURNForWhatsApp "+12345678" = none ∧
    (goSplit "+12345678" ':').length = 1 ∧
    receiveMessage true authTok id reqMoNoColon = (.panicked, []) ∧
    receiveMessage true authTok id reqMoWhatsApp =
      (.received "whatsapp:12211414154" "" [] "SM9",
        [.newIncomingMsg "whatsapp:12211414154" "", .writeMsgs]) := by
  have hv1 : validateSignature authTok reqMoNoColon = .ok () :=
    validateSignature_signed "token123" "example.com" "/c/t/abc/receive"
      [("MessageSID", ["SM9"]), ("AccountSID", ["AC1"]), ("From", ["+12345678"]),
        ("To", ["+15550001111"])] "" (by decide)
  have hv2 : validateSignature authTok reqMoWhatsApp = .ok () :=
    validateSignature_signed "token123" "example.com" "/c/t/abc/receive"
      [("MessageSID", ["SM9"]), ("AccountSID", ["AC1"]),
        ("From", ["whatsapp:+12211414154"]), ("To", ["+15550001111"])] "" (by decide)
  refine ⟨by decide, by decide, ?_, ?_⟩
  · rw [show receiveMessage true authTok id reqMoNoColon =
        receiveMessagePostAuth true id reqMoNoColon from by simp [receiveMessage, hv1]]
    decide
  · rw [show receiveMessage true authTok id reqMoWhatsApp =
        receiveMessagePostAuth true id reqMoWhatsApp from by simp [receiveMessage, hv2]]
    decide

theorem splitMsg_ne_nil (text : String) (limit : Nat) : splitMsg text limit ≠ [] := by
  unfold splitMsg
  split
  · simp
  · rename_i h
    have hne : text.data ≠ [] := by
      intro e
      rw [e] at h
      simp at h
    obtain ⟨c, cs, hcs⟩ := List.exists_cons_of_ne_nil hne
    rw [hcs]
    simp [splitMsgGo]

theorem buildSendForm_some (ch : TwChannel) (m : TwOutMsg) (cb : String) (i : Nat) (part : String)
    (hWA : ch.isWhatsAppScheme = true → ch.messagingServiceSID = "") :
    ∃ f, buildSendForm ch m cb i part = some f := by
  unfold buildSendForm
  by_cases hw : ch.isWhatsAppScheme = true
  · have hs := hWA hw
    simp [hw, hs]
  · simp [hw]

theorem buildSendForm_media_none (ch : TwChannel) (m : TwOutMsg) (cb : String) (i : Nat)
    (part : String) (f : TwForm) (hi : 0 < i)
    (hf : buildSendForm ch m cb i part = some f) : f.MediaUrl = none := by
  have hi2 : ¬ (m.attachments.length > 0 ∧ i = 0) := by omega
  unfold buildSendForm at hf
  dsimp only at hf
  rw [if_neg hi2] at hf
  by_cases hm : ch.messagingServiceSID ≠ "" <;> by_cases hw : ch.isWhatsAppScheme = true <;>
    simp [hm, hw] at hf <;> simp [← hf]

theorem buildSendForm_media_some (ch : TwChannel) (m : TwOutMsg) (cb : String)
    (part : String) (f : TwForm) (ha : m.attachments ≠ [])
    (hf : buildSendForm ch m cb 0 part = some f) : f.MediaUrl.isSome = true := by
  have hi2 : m.attachments.length > 0 ∧ 0 = 0 :=
    ⟨List.length_pos.mpr ha, rfl⟩
  unfold buildSendForm at hf
  dsimp only at hf
  rw [if_pos hi2] at hf
  by_cases hm : ch.messagingServiceSID ≠ "" <;> by_cases hw : ch.isWhatsAppScheme = true <;>
    simp [hm, hw] at hf <;> simp [← hf]

theorem sendSegs_fail_step (ch : TwChannel) (m : TwOutMsg) (cb : String)
    (resp : Nat → TwResponse) (i : Nat) (part : String) (rest : List String) (st : SendOutcome)
    (hURL : ch.sendURLValid = true)
    (hWA : ch.isWhatsAppScheme = true → ch.messagingServiceSID = "")
    (hfail : respHardFail (resp i) = true) :
    sendSegs ch m cb resp i (part :: rest) st = .ok { st with attempted := st.attempted + 1 } := by
  obtain ⟨f, hf⟩ := buildSendForm_some ch m cb i part hWA
  simp only [respHardFail, Bool.and_eq_true, Bool.or_eq_true, Bool.not_eq_true,
    bne_iff_ne, ne_eq] at hfail
  obtain ⟨ht, hcase⟩ := hfail
  rcases hcase with ⟨⟨hb, hc0⟩, hcs⟩ | hb
  · simp [sendSegs, hf, hURL, ht, hb, hc0, hcs]
  · rw [Bool.not_eq_true'] at hb
    simp [sendSegs, hf, hURL, ht, hb]

theorem sendSegs_stop_step (ch : TwChannel) (m : TwOutMsg) (cb : String)
    (resp : Nat → TwResponse) (i : Nat) (part : String) (rest : List String) (st : SendOutcome)
    (hURL : ch.sendURLValid = true)
    (hWA : ch.isWhatsAppScheme = true → ch.messagingServiceSID = "")
    (hstop : respOptOut (resp i) = true) :
    sendSegs ch m cb resp i (part :: rest) st =
      .ok { st with
        status := .MsgFailed
        stops := st.stops + 1
        attempted := st.attempted + 1 } := by
  obtain ⟨f, hf⟩ := buildSendForm_some ch m cb i part hWA
  simp only [respOptOut, Bool.and_eq_true, beq_iff_eq] at hstop
  obtain ⟨⟨ht, hb⟩, hc⟩ := hstop
  have hc0 : (resp i).code ≠ 0 := by
    rw [hc]
    unfold errorStopped
    omega
  simp [sendSegs, hf, hURL, ht, hb, hc0, hc, errorStopped]

theorem sendSegs_skip (ch : TwChannel) (m : TwOutMsg) (cb : String) (resp : Nat → TwResponse)
    (hURL : ch.sendURLValid = true)
    (hWA : ch.isWhatsAppScheme = true → ch.messagingServiceSID = "") :
    ∀ (k : Nat) (parts : List String) (i : Nat) (st : SendOutcome),
      k ≤ parts.length →
      (∀ j, j < k → respOK (resp (i + j)) = true) →
      sendSegs ch m cb resp i parts st =
        sendSegs ch m cb resp (i + k) (parts.drop k)
          { status := if k = 0 then st.status else .MsgWired
            externalID := if i = 0 ∧ 0 < k then some ((resp i).sid.getD "") else st.externalID
            stops := st.stops
            attempted := st.attempted + k } := by
  intro k
  induction k with
  | zero =>
    intro parts i st _ _
    simp
  | succ k2 ih =>
    intro parts i st hk hok
    cases parts with
    | nil => simp at hk
    | cons part rest =>
      have h0 := hok 0 (by omega)
      rw [Nat.add_zero] at h0
      simp only [respOK, Bool.and_eq_true, Bool.not_eq_true, Option.isSome_iff_exists] at h0
      obtain ⟨ht, s, hs⟩ := h0
      obtain ⟨f, hf⟩ := buildSendForm_some ch m cb i part hWA
      rw [Bool.not_eq_true'] at ht
      have hstep : sendSegs ch m cb resp i (part :: rest) st =
          sendSegs ch m cb resp (i + 1) rest
            (if i = 0 then
              { st with
                status := .MsgWired
                externalID := some s
                attempted := st.attempted + 1 }
             else
              { st with
                status := .MsgWired
                attempted := st.attempted + 1 }) := by
        by_cases hi : i = 0
        · subst hi
          simp [sendSegs, hf, hURL, ht, hs]
        · simp [sendSegs, hf, hURL, ht, hs, hi]
      rw [hstep, ih rest (i + 1) _ (by simpa using hk) (by
        intro j hj
        have h2 := hok (j + 1) (by omega)
        rwa [show i + (j + 1) = i + 1 + j by omega] at h2)]
      rw [show i + 1 + k2 = i + (k2 + 1) by omega]
      rw [List.drop_succ_cons]
      by_cases hi : i = 0
      · subst hi
        have hgetD : (resp 0).sid.getD "" = s := by rw [hs]; rfl
        by_cases hk2 : k2 = 0 <;> simp [hk2, hgetD, Nat.add_assoc, Nat.add_comm 1 k2]
      · by_cases hk2 : k2 = 0 <;> simp [hi, hk2, Nat.add_assoc, Nat.add_comm 1 k2]

/-- C1 (amended): `SendMsg` initialises the `MessageStatus` in the Errored
state, and when the first k segments succeed and segment k fails with a
provider error code other than the opt-out code, or with a transport error
with no parseable response, it halts having transmitted exactly k+1
segments and performs no contact stop; the returned status is Errored when
the failing segment is the first, and remains Wired — set by the earlier
successful segment — when k > 0. -/
theorem sendMsg_halts_on_provider_error :
    ∀ (ch : TwChannel) (m : TwOutMsg) (resp : Nat → TwResponse) (k : Nat),
      ch.accountSID ≠ "" → ch.authToken ≠ "" → ch.sendURLValid = true →
      (ch.isWhatsAppScheme = true → ch.messagingServiceSID = "") →
      k < (splitMsg m.text maxMsgLength).length →
      (∀ j, j < k → respOK (resp j) = true) →
      respHardFail (resp k) = true →
      initialSendStatus = .MsgErrored ∧
      ∃ st, SendMsg ch m resp = .ok st ∧ st.attempted = k + 1 ∧ st.stops = 0 ∧
        st.status = (if k = 0 then MsgStatusValue.MsgErrored else .MsgWired) := by
  intro ch m resp k hA hT hURL hWA hk hok hfail
  refine ⟨rfl, ?_⟩
  obtain ⟨part, rest, hdrop⟩ : ∃ a l, (splitMsg m.text maxMsgLength).drop k = a :: l := by
    cases hd : (splitMsg m.text maxMsgLength).drop k with
    | nil =>
      exfalso
      have h2 := congrArg List.length hd
      simp [List.length_drop] at h2
      omega
    | cons a l => exact ⟨a, l, rfl⟩
  unfold SendMsg
  rw [if_neg hA, if_neg hT]
  rw [sendSegs_skip ch m (callbackURLOf ch m) resp hURL hWA k (splitMsg m.text maxMsgLength)
    0 _ (Nat.le_of_lt hk) (by simpa using hok)]
  rw [hdrop, Nat.zero_add]
  rw [sendSegs_fail_step ch m (callbackURLOf ch m) resp k part rest _ hURL hWA hfail]
  refine ⟨_, rfl, by simp, by simp, by simp [initialSendStatus]⟩

/-- Witness for C1 (amended) at a one-segment message whose only response
is a non-opt-out provider error. -/
theorem sendMsg_halts_on_provider_error_witness :
    respHardFail (respBadCode 0) = true ∧
    0 < (splitMsg twMsgShort.text maxMsgLength).length ∧
    (initialSendStatus = .MsgErrored ∧
      ∃ st, SendMsg twCh twMsgShort respBadCode = .ok st ∧ st.attempted = 0 + 1 ∧
        st.stops = 0 ∧ st.status = (if 0 = 0 then MsgStatusValue.MsgErrored else .MsgWired)) :=
  ⟨by decide, by decide,
    sendMsg_halts_on_provider_error twCh twMsgShort respBadCode 0 (by decide) (by decide) rfl
      (by decide) (by decide) (fun j hj => absurd hj (by omega)) (by decide)⟩

/-- Counterexample to C1 as stated: with two segments, segment 0 succeeding
and segment 1 failing with a transport error and no parseable response,
`SendMsg` halts but returns status Wired — set by the successful first
segment — not Errored. -/
theorem sendMsg_error_after_success_keeps_wired :
    respHardFail (respOkThenTransport 1) = true ∧
    respOK (respOkThenTransport 0) = true ∧
    1 < (splitMsg twMsgLong.text maxMsgLength).length ∧
    SendMsg twCh twMsgLong respOkThenTransport =
      .ok { status := .MsgWired, externalID := some "SM0", stops := 0, attempted := 2 } :=
  ⟨by decide, by decide, by decide, by decide⟩

/-- C7: when the first failing segment response carries the recognised
opt-out error code, `SendMsg` returns status Failed and instructs the
backend to stop the contact exactly once, also on multi-segment sends. -/
theorem sendMsg_optout_stops_once :
    ∀ (ch : TwChannel) (m : TwOutMsg) (resp : Nat → TwResponse) (k : Nat),
      ch.accountSID ≠ "" → ch.authToken ≠ "" → ch.sendURLValid = true →
      (ch.isWhatsAppScheme = true → ch.messagingServiceSID = "") →
      k < (splitMsg m.text maxMsgLength).length →
      (∀ j, j < k → respOK (resp j) = true) →
      respOptOut (resp k) = true →
      ∃ st, SendMsg ch m resp = .ok st ∧ st.status = .MsgFailed ∧ st.stops = 1 ∧
        st.attempted = k + 1 := by
  intro ch m resp k hA hT hURL hWA hk hok hstop
  obtain ⟨part, rest, hdrop⟩ : ∃ a l, (splitMsg m.text maxMsgLength).drop k = a :: l := by
    cases hd : (splitMsg m.text maxMsgLength).drop k with
    | nil =>
      exfalso
      have h2 := congrArg List.length hd
      simp [List.length_drop] at h2
      omega
    | cons a l => exact ⟨a, l, rfl⟩
  unfold SendMsg
  rw [if_neg hA, if_neg hT]
  rw [sendSegs_skip ch m (callbackURLOf ch m) resp hURL hWA k (splitMsg m.text maxMsgLength)
    0 _ (Nat.le_of_lt hk) (by simpa using hok)]
  rw [hdrop, Nat.zero_add]
  rw [sendSegs_stop_step ch m (callbackURLOf ch m) resp k part rest _ hURL hWA hstop]
  exact ⟨_, rfl, rfl, by simp, by simp⟩

/-- Witness for C7 at a two-segment message whose first segment succeeds
and whose second returns the opt-out code. -/
theorem sendMsg_optout_stops_once_witness :
    respOptOut (respOkThenStop 1) = true ∧
    1 < (splitMsg twMsgLong.text maxMsgLength).length ∧
    ∃ st, SendMsg twCh twMsgLong respOkThenStop = .ok st ∧ st.status = .MsgFailed ∧
      st.stops = 1 ∧ st.attempted = 1 + 1 :=
  ⟨by decide, by decide,
    sendMsg_optout_stops_once twCh twMsgLong respOkThenStop 1 (by decide) (by decide) rfl
      (by decide) (by decide) (by decide) (by decide)⟩

/-- C8: only the first segment request carries an attachment media URL,
and on an all-success send the provider external identifier recorded on
the returned status is the one from the first segment response, with the
status advanced to Wired. -/
theorem sendMsg_first_segment_only :
    ∀ (ch : TwChannel) (m : TwOutMsg) (resp : Nat → TwResponse),
      ch.accountSID ≠ "" → ch.authToken ≠ "" → ch.sendURLValid = true →
      (ch.isWhatsAppScheme = true → ch.messagingServiceSID = "") →
      (∀ (i : Nat) (part : String) (f : TwForm), 0 < i →
        buildSendForm ch m (callbackURLOf ch m) i part = some f → f.MediaUrl = none) ∧
      (m.attachments ≠ [] → ∀ (part : String) (f : TwForm),
        buildSendForm ch m (callbackURLOf ch m) 0 part = some f → f.MediaUrl.isSome = true) ∧
      ((∀ j, j < (splitMsg m.text maxMsgLength).length → respOK (resp j) = true) →
        ∃ st, SendMsg ch m resp = .ok st ∧ st.status = .MsgWired ∧
          st.externalID = some ((resp 0).sid.getD "") ∧
          st.attempted = (splitMsg m.text maxMsgLength).length) := by
  intro ch m resp hA hT hURL hWA
  refine ⟨fun i part f hi hf => buildSendForm_media_none ch m _ i part f hi hf,
    fun ha part f hf => buildSendForm_media_some ch m _ part f ha hf, ?_⟩
  intro hok
  have hlen : (splitMsg m.text maxMsgLength).length ≠ 0 := by
    have hne := splitMsg_ne_nil m.text maxMsgLength
    simpa [List.length_eq_zero] using hne
  unfold SendMsg
  rw [if_neg hA, if_neg hT]
  rw [sendSegs_skip ch m (callbackURLOf ch m) resp hURL hWA
    (splitMsg m.text maxMsgLength).length (splitMsg m.text maxMsgLength) 0 _ le_rfl
    (by simpa using hok)]
  rw [List.drop_length]
  simp only [sendSegs]
  refine ⟨_, rfl, ?_, ?_, ?_⟩ <;> simp [hlen, Nat.pos_of_ne_zero hlen]

/-- Witness for C8 at the two-segment message with one attachment and
all-success responses returning distinct provider identifiers. -/
theorem sendMsg_first_segment_only_witness :
    twMsgLong.attachments ≠ [] ∧
    ∃ st, SendMsg twCh twMsgLong respAllOk = .ok st ∧ st.status = .MsgWired ∧
      st.externalID = some ((respAllOk 0).sid.getD "") ∧
      st.attempted = (splitMsg twMsgLong.text maxMsgLength).length :=
  ⟨by decide,
    (sendMsg_first_segment_only twCh twMsgLong respAllOk (by decide) (by decide) rfl
      (by decide)).2.2 (by decide)⟩
